import Mathlib

/-!
Verification of the Smart-Irrigation-System firmware control logic.

The definitions below are a shallow embedding of the two ESP32 sketches:

* `src/Watering_IoT/Watering_IoT.ino` (the V-ONE arbiter firmware), embedded
  in the root namespace: mode arbiter, pulse scheduler, actuator output,
  soil-moisture calibration.
* `src/Edge/Watering_IoT/Watering_IoT.ino` (the plain-MQTT edge firmware),
  embedded in namespace `Edge`: command callback, serial command handler,
  telemetry NaN handling.

Time is modelled as `Nat` milliseconds (the value of `millis()`); Arduino
`unsigned long` arithmetic coincides with `Nat` arithmetic on the
monotonically increasing time values used here.  `float` sensor readings
that may be NaN are modelled as `Option ℚ` with `none` standing for NaN
(no float arithmetic is performed on them by the code, they are passed
through to the payload).  The JSON library call in `onActuatorReceived`
is abstracted to its outcome, an `Option Bool`: `none` models
`JSON.typeof(cmd) == "undefined"` (unparsable payload) and `some b`
models the parsed value of `(bool)cmd["Relay"]`.
-/

/-- Device id of the relay actuator, `src/Watering_IoT/Watering_IoT.ino:21`. -/
def RelayWaterPump : String := "8ae703d6-c543-4e83-9cdc-9a0c5f3ceb98"

/-- Manual override timeout in ms, `Watering_IoT.ino:51`. -/
def MANUAL_TIMEOUT : Nat := 30000

/-- Cycle period in ms, `Watering_IoT.ino:79`. -/
def TELEMETRY_CYCLE : Nat := 60000

/-- Short pulse duration in ms, `Watering_IoT.ino:80`. -/
def FUZZY1_PULSE : Nat := 20000

/-- Long pulse duration in ms, `Watering_IoT.ino:81`. -/
def FUZZY2_PULSE : Nat := 40000

/-- Soil calibration raw value for fully dry soil, `Watering_IoT.ino:45`. -/
def MinDepth : Int := 4095

/-- Soil calibration raw value for fully wet soil, `Watering_IoT.ino:46`. -/
def MaxDepth : Int := 2170

/-- Control modes, `Watering_IoT.ino:57-61`. -/
inductive ControlMode where
  | AUTO_MODE
  | MANUAL_MODE
  | EMERGENCY_STOP
deriving DecidableEq, Repr

open ControlMode

/-- The mutable control state of the arbiter firmware
(`Watering_IoT.ino:52,62,68-77,83`). -/
structure DeviceState where
  mode : ControlMode
  pumpState : Bool
  lastPumpState : Bool
  fuzzyState : Int
  pulseRunning : Bool
  pulseEndTime : Nat
  cycleStart : Nat
  manualStartTime : Nat
  manualLock : Bool
deriving DecidableEq, Repr

/-- Initial values of the globals (`Watering_IoT.ino:52,62,68-77,83`). -/
def initState : DeviceState :=
  { mode := AUTO_MODE
    pumpState := false
    lastPumpState := false
    fuzzyState := 0
    pulseRunning := false
    pulseEndTime := 0
    cycleStart := 0
    manualStartTime := 0
    manualLock := false }

/-- The V-ONE actuator callback, `Watering_IoT.ino:129-152`.  `payload` is
the abstracted JSON outcome: `none` when `JSON.typeof(cmd) == "undefined"`,
`some b` for the parsed boolean of `cmd["Relay"]`. -/
def onActuatorReceived (deviceId : String) (payload : Option Bool)
    (now : Nat) (s : DeviceState) : DeviceState :=
  if deviceId ≠ RelayWaterPump then s
  else
    match payload with
    | none => s
    | some true =>
        { s with mode := MANUAL_MODE
                 pumpState := true
                 manualStartTime := now + MANUAL_TIMEOUT
                 manualLock := true }
    | some false =>
        { s with mode := EMERGENCY_STOP
                 pumpState := false
                 pulseRunning := false
                 manualLock := true }

/-- Accumulate leading decimal digits, stopping at the first non-digit;
models the digit loop of C `atol` used by Arduino `String::toInt`. -/
def digitsVal : List Char → Nat → Nat
  | [], acc => acc
  | c :: cs, acc =>
      if c.isDigit then digitsVal cs (acc * 10 + (c.toNat - 48)) else acc

/-- Arduino `String::toInt` (C `atol`): skip leading whitespace, optional
sign, then leading digits; a string with no leading digits yields 0. -/
def arduinoToInt (s : String) : Int :=
  match s.data.dropWhile Char.isWhitespace with
  | [] => 0
  | c :: rest =>
      if c = '-' then -(digitsVal rest 0 : Int)
      else if c = '+' then (digitsVal rest 0 : Int)
      else (digitsVal (c :: rest) 0 : Int)

/-- Arduino `String::trim`: remove leading and trailing whitespace. -/
def arduinoTrim (s : String) : String :=
  String.mk (((s.data.dropWhile Char.isWhitespace).reverse.dropWhile
    Char.isWhitespace).reverse)

/-- Serial fuzzy-state input handling, `Watering_IoT.ino:227-233`. -/
def serialFuzzy (line : String) (s : DeviceState) : DeviceState :=
  if ((arduinoTrim line).length > 0) then
    { s with fuzzyState := arduinoToInt (arduinoTrim line) }
  else s

/-- The pulse-scheduler body of the AUTO branch, `Watering_IoT.ino:253-283`:
start a new irrigation cycle when the cycle period has elapsed, then apply
the pulse timing. -/
def pulseScheduler (now : Nat) (s : DeviceState) : DeviceState :=
  let s1 :=
    if now - s.cycleStart ≥ TELEMETRY_CYCLE then
      let s0 := { s with cycleStart := now, pulseRunning := false }
      if s.fuzzyState = 1 then
        { s0 with pulseEndTime := now + FUZZY1_PULSE, pulseRunning := true }
      else if s.fuzzyState = 2 then
        { s0 with pulseEndTime := now + FUZZY2_PULSE, pulseRunning := true }
      else s0
    else s
  if s1.pulseRunning then
    if now < s1.pulseEndTime then { s1 with pumpState := true }
    else { s1 with pumpState := false, pulseRunning := false }
  else { s1 with pumpState := false }

/-- The control-logic section of `loop`, `Watering_IoT.ino:238-284`. -/
def controlLogic (now : Nat) (s : DeviceState) : DeviceState :=
  if s.mode = EMERGENCY_STOP then
    { s with pumpState := false, pulseRunning := false, manualLock := true }
  else if s.mode = MANUAL_MODE then
    let s1 := { s with pumpState := true, manualLock := true }
    if now > s1.manualStartTime then
      { s1 with mode := AUTO_MODE, manualLock := false }
    else s1
  else if s.mode = AUTO_MODE ∧ s.manualLock = false then
    pulseScheduler now s
  else s

/-- Actuator output, `Watering_IoT.ino:157-167`: applies the pump state and
returns the updated state together with whether a state-change telemetry
message was published this call. -/
def applyPump (s : DeviceState) : DeviceState × Bool :=
  if s.pumpState ≠ s.lastPumpState then
    ({ s with lastPumpState := s.pumpState }, true)
  else (s, false)

/-- One control-and-actuation pass of `loop` at time `now`
(`Watering_IoT.ino:238-287`): control logic followed by `applyPump`. -/
def tickLoop (now : Nat) (s : DeviceState) : DeviceState :=
  (applyPump (controlLogic now s)).1

/-- External events that mutate the arbiter state between or during loop
iterations: an inbound actuator command, a serial line, or a
control-logic pass of the loop at a given time. -/
inductive Event where
  | actCmd (deviceId : String) (payload : Option Bool) (now : Nat)
  | serialLine (line : String)
  | tick (now : Nat)

/-- Apply one event to the arbiter state. -/
def stepEvent (e : Event) (s : DeviceState) : DeviceState :=
  match e with
  | Event.actCmd d p now => onActuatorReceived d p now s
  | Event.serialLine l => serialFuzzy l s
  | Event.tick now => tickLoop now s

/-- Run a list of events, oldest first. -/
def runEvents : List Event → DeviceState → DeviceState
  | [], s => s
  | e :: es, s => runEvents es (stepEvent e s)

/-- Whether an event is a manual-ON command accepted by the callback
(device id matches the relay actuator and `Relay` parses to true). -/
def isManualOn : Event → Bool
  | Event.actCmd d p _ => d = RelayWaterPump && p = some true
  | _ => false

/-- States reachable from power-on by any sequence of events. -/
inductive Reachable : DeviceState → Prop where
  | init : Reachable initState
  | step : ∀ (s : DeviceState) (e : Event), Reachable s → Reachable (stepEvent e s)

/-- Arduino `map` on `long` values: C integer division truncates toward
zero, hence `Int.tdiv`. -/
def arduinoMap (x inMin inMax outMin outMax : Int) : Int :=
  Int.tdiv ((x - inMin) * (outMax - outMin)) (inMax - inMin) + outMin

/-- Arduino `constrain`. -/
def constrain (x lo hi : Int) : Int :=
  if x < lo then lo else if x > hi then hi else x

/-- Soil-moisture percent computation, `Watering_IoT.ino:303-305` and
`Edge/Watering_IoT/Watering_IoT.ino:65-67`:
`map(raw, MinDepth, MaxDepth, 0, 100)` then `constrain(·, 0, 100)`. -/
def soilPercent (raw : Int) : Int :=
  constrain (arduinoMap raw MinDepth MaxDepth 0 100) 0 100

/-- Temperature/humidity fields of the arbiter firmware's telemetry
payload, `Watering_IoT.ino:295-301`: raw readings are published with no
NaN substitution (`none` models NaN). -/
def telemetryTH (t h : Option ℚ) : Option ℚ × Option ℚ := (t, h)

namespace Edge

/-- Command topic, `Edge/Watering_IoT/Watering_IoT.ino:27`. -/
def topic_command : String := "device/ESP32_001/command"

/-- Control state of the edge firmware: only the pump flag,
`Edge/Watering_IoT/Watering_IoT.ino:53`. -/
structure EdgeState where
  pumpState : Bool
deriving DecidableEq, Repr

/-- MQTT command callback, `Edge/Watering_IoT/Watering_IoT.ino:130-151`:
on the command topic, `message.toInt() == 1` turns the pump on and any
other value (including the 0 produced by a non-numeric string) turns it
off. -/
def callback (topic message : String) (s : EdgeState) : EdgeState :=
  if topic = topic_command then
    { s with pumpState := arduinoToInt message = 1 }
  else s

/-- Serial command handling, `Edge/Watering_IoT/Watering_IoT.ino:233-247`:
a trimmed non-empty line with `toInt` of 2 or 1 turns the pump on, any
other turns it off; an empty line is ignored. -/
def serialCommand (line : String) (s : EdgeState) : EdgeState :=
  if ((arduinoTrim line).length > 0) then
    { s with pumpState :=
        arduinoToInt (arduinoTrim line) = 2 ∨ arduinoToInt (arduinoTrim line) = 1 }
  else s

/-- Temperature/humidity handling of `sendTelemetry`,
`Edge/Watering_IoT/Watering_IoT.ino:61-63`: when either reading is NaN
(`none`), both are replaced by 0 before the payload is built. -/
def sendTelemetryTH (t h : Option ℚ) : Option ℚ × Option ℚ :=
  if t = none ∨ h = none then (some 0, some 0) else (t, h)

end Edge

/-! ### Helper lemmas about the control logic -/

/-- Branch lemma: in EMERGENCY_STOP the control logic forces the pump off,
closes the window and keeps the lock. -/
theorem controlLogic_emergency (s : DeviceState) (now : Nat)
    (h : s.mode = EMERGENCY_STOP) :
    controlLogic now s =
      { s with pumpState := false, pulseRunning := false, manualLock := true } := by
  unfold controlLogic
  rw [if_pos h]

/-- Branch lemma: in MANUAL_MODE the pump is forced on; past the deadline
the mode reverts to AUTO and the lock is released. -/
theorem controlLogic_manual (s : DeviceState) (now : Nat)
    (h : s.mode = MANUAL_MODE) :
    controlLogic now s =
      if now > s.manualStartTime then
        { s with pumpState := true, manualLock := false, mode := AUTO_MODE }
      else { s with pumpState := true, manualLock := true } := by
  unfold controlLogic
  rw [if_neg (by simp [h]), if_pos h]

/-- Branch lemma: in AUTO with the lock clear, the control logic runs the
pulse scheduler. -/
theorem controlLogic_auto (s : DeviceState) (now : Nat)
    (h1 : s.mode = AUTO_MODE) (h2 : s.manualLock = false) :
    controlLogic now s = pulseScheduler now s := by
  unfold controlLogic
  rw [if_neg (by simp [h1]), if_neg (by simp [h1]), if_pos ⟨h1, h2⟩]

/-- The pulse scheduler never touches mode, lock, or fuzzy state. -/
theorem pulseScheduler_frame (s : DeviceState) (now : Nat) :
    (pulseScheduler now s).mode = s.mode ∧
    (pulseScheduler now s).manualLock = s.manualLock ∧
    (pulseScheduler now s).fuzzyState = s.fuzzyState ∧
    (pulseScheduler now s).manualStartTime = s.manualStartTime := by
  unfold pulseScheduler
  dsimp only
  repeat' split
  all_goals simp_all

/-- Post-state of the pulse scheduler: the pump is commanded on exactly
when the (possibly fresh) window is running and has not yet expired. -/
theorem pulseScheduler_pump (s : DeviceState) (now : Nat) :
    (pulseScheduler now s).pumpState = true ↔
      ((pulseScheduler now s).pulseRunning = true ∧
        now < (pulseScheduler now s).pulseEndTime) := by
  unfold pulseScheduler
  dsimp only
  repeat' split
  all_goals simp_all

/-- `applyPump` changes only `lastPumpState`. -/
theorem applyPump_frame (s : DeviceState) :
    ((applyPump s).1.mode = s.mode ∧ (applyPump s).1.manualLock = s.manualLock) ∧
    (applyPump s).1.pumpState = s.pumpState ∧
    (applyPump s).1.pulseRunning = s.pulseRunning ∧
    (applyPump s).1.pulseEndTime = s.pulseEndTime := by
  unfold applyPump
  split <;> simp_all

/-- The lock/mode coherence invariant: the `manualLock` flag is set exactly
when the mode is not AUTO. -/
def lockInv (s : DeviceState) : Prop :=
  s.manualLock = true ↔ s.mode ≠ AUTO_MODE

/-- Every event step preserves the lock/mode coherence invariant. -/
theorem lockInv_step (s : DeviceState) (e : Event) (h : lockInv s) :
    lockInv (stepEvent e s) := by
  unfold lockInv at *
  cases e with
  | actCmd d p now =>
      show lockInv (onActuatorReceived d p now s)
      unfold lockInv onActuatorReceived
      split
      · exact h
      · match p with
        | none => exact h
        | some true => simp
        | some false => simp
  | serialLine l =>
      show lockInv (serialFuzzy l s)
      unfold lockInv serialFuzzy
      split <;> exact h
  | tick now =>
      show lockInv (tickLoop now s)
      unfold lockInv tickLoop
      rw [(applyPump_frame (controlLogic now s)).1.2,
          (applyPump_frame (controlLogic now s)).1.1]
      match hm : s.mode with
      | EMERGENCY_STOP =>
          rw [controlLogic_emergency s now hm]
          simp [hm]
      | MANUAL_MODE =>
          rw [controlLogic_manual s now hm]
          split <;> simp [hm]
      | AUTO_MODE =>
          have hl : s.manualLock = false := by
            rcases Bool.eq_false_or_eq_true s.manualLock with hb | hb
            · exact absurd hm (h.mp hb)
            · exact hb
          rw [controlLogic_auto s now hm hl,
              (pulseScheduler_frame s now).2.1,
              (pulseScheduler_frame s now).1]
          simp [hl, hm]

/-- Every reachable state satisfies the lock/mode coherence invariant. -/
theorem reachable_lockInv (s : DeviceState) (h : Reachable s) : lockInv s := by
  induction h with
  | init => unfold lockInv initState; simp
  | step s e _ ih => exact lockInv_step s e ih

/-! ### Claim theorems -/

/-- Helper: the truncating division in the Arduino map is at least 100 for
readings wetter than the calibration wet bound. -/
theorem tdiv_map_ge_100 (a : Int) (h : a ≤ -1926) :
    100 ≤ -(Int.tdiv (a * 100) 1925) := by
  have h1 : a * 100 = -(-a * 100) := by ring
  rw [h1, Int.neg_tdiv, neg_neg]
  have h0 : (0 : Int) ≤ -a * 100 := by nlinarith
  rw [Int.tdiv_eq_ediv h0 (by norm_num)]
  omega

/-- C6: for every raw analog moisture reading the computed soil-moisture
percent lies in [0,100]; the calibration dry value maps to 0 percent, the
calibration wet value maps to 100 percent, and a raw reading beyond the
wet value is clamped to 100 percent. -/
theorem soilPercent_calibration :
    (∀ raw : Int, 0 ≤ soilPercent raw ∧ soilPercent raw ≤ 100) ∧
    soilPercent MinDepth = 0 ∧ soilPercent MaxDepth = 100 ∧
    (∀ raw : Int, raw < MaxDepth → soilPercent raw = 100) := by
  refine ⟨?_, by decide, by decide, ?_⟩
  · intro raw
    unfold soilPercent constrain
    split_ifs <;> omega
  · intro raw hraw
    have key : 100 ≤ arduinoMap raw MinDepth MaxDepth 0 100 := by
      unfold arduinoMap MinDepth MaxDepth
      unfold MaxDepth at hraw
      norm_num
      exact tdiv_map_ge_100 (raw - 4095) (by omega)
    unfold soilPercent constrain
    split_ifs <;> omega

/-- C6 witness: a raw reading of 1000 is beyond the wet bound and is
clamped to 100 percent, which is within bounds. -/
theorem soilPercent_calibration_w :
    soilPercent 1000 = 100 ∧ 0 ≤ soilPercent 1000 :=
  ⟨soilPercent_calibration.2.2.2 1000 (by decide),
   (soilPercent_calibration.1 1000).1⟩

/-- Run the actuator over a sequence of control cycles: each cycle the
newly computed pump command is stored and `applyPump`
(`Watering_IoT.ino:157-167`) is invoked; collect the per-cycle
did-publish flags. -/
def actuatorRun : DeviceState → List Bool → List Bool
  | _, [] => []
  | s, p :: ps =>
      let r := applyPump { s with pumpState := p }
      r.2 :: actuatorRun r.1 ps

/-- Modelled from the spec side for comparison: the per-cycle flags that
mark exactly the true transitions of the applied pump value. -/
def transFlags : Bool → List Bool → List Bool
  | _, [] => []
  | prev, p :: ps => decide (p ≠ prev) :: transFlags p ps

/-- C9: across every sequence of control cycles the actuator publishes a
state-change event exactly on the cycles where the newly applied pump
value differs from the previously applied one, and never otherwise. -/
theorem applyPump_edge_triggered :
    ∀ (cmds : List Bool) (s : DeviceState),
      actuatorRun s cmds = transFlags s.lastPumpState cmds := by
  intro cmds
  induction cmds with
  | nil => intro s; rfl
  | cons p ps ih =>
      intro s
      simp only [actuatorRun, transFlags, applyPump]
      by_cases h : p = s.lastPumpState
      · rw [if_neg (by simp [h])]
        simpa [h] using ih { s with pumpState := p }
      · rw [if_pos (by simp [h])]
        simpa [h] using ih { s with pumpState := p, lastPumpState := p }

/-- Concrete line inputs used by witnesses and counterexamples. -/
def msgOne : String := "1"

/-- Concrete serial line carrying fuzzy intensity 2. -/
def msgTwo : String := "2"

/-- Concrete malformed (non-numeric) command string. -/
def msgAbc : String := "abc"

/-- C3 counterexample: enter MANUAL at t = 0 (deadline 0 + 30000); at the
instant now = t + T = 30000 the claim requires ControlMode = AUTO, but the
control pass keeps MANUAL because the code tests `now > manualStartTime`
strictly. -/
theorem manual_timeout_boundary_cex :
    ¬ ((controlLogic 30000
        (onActuatorReceived RelayWaterPump (some true) 0 initState)).mode
      = AUTO_MODE) := by
  decide

/-- C3 amended: if MANUAL is entered at time t (deadline t + MANUAL_TIMEOUT)
and no further commands arrive, a control pass at any now ≤ t + MANUAL_TIMEOUT
keeps ControlMode = MANUAL with PumpCommand = true and the deadline
unchanged; a control pass at any now > t + MANUAL_TIMEOUT switches to AUTO
(the pump still being commanded on during that transition pass); and once in
AUTO, later passes keep AUTO. -/
theorem manual_timeout_semantics :
    ∀ (s : DeviceState) (t now : Nat),
      s.mode = MANUAL_MODE → s.manualStartTime = t + MANUAL_TIMEOUT →
      ((now ≤ t + MANUAL_TIMEOUT →
          (controlLogic now s).mode = MANUAL_MODE ∧
          (controlLogic now s).pumpState = true ∧
          (controlLogic now s).manualStartTime = t + MANUAL_TIMEOUT) ∧
       (now > t + MANUAL_TIMEOUT →
          (controlLogic now s).mode = AUTO_MODE ∧
          (controlLogic now s).pumpState = true ∧
          (controlLogic now s).manualLock = false)) ∧
      (∀ (s2 : DeviceState) (n2 : Nat),
        s2.mode = AUTO_MODE → (controlLogic n2 s2).mode = AUTO_MODE) := by
  intro s t now hm hd
  constructor
  · rw [controlLogic_manual s now hm, hd]
    constructor
    · intro hle
      rw [if_neg (by omega)]
      exact ⟨hm, rfl, rfl⟩
    · intro hgt
      rw [if_pos hgt]
      exact ⟨rfl, rfl, rfl⟩
  · intro s2 n2 h2
    match hml : s2.manualLock with
    | false =>
        rw [controlLogic_auto s2 n2 h2 hml, (pulseScheduler_frame s2 n2).1]
        exact h2
    | true =>
        unfold controlLogic
        rw [if_neg (by simp [h2]), if_neg (by simp [h2]),
            if_neg (by simp [hml])]
        exact h2

/-- C3 witness: MANUAL entered at t = 0; a pass at now = 15000 keeps MANUAL
with the pump on, and a pass at now = 30001 reverts to AUTO. -/
theorem manual_timeout_semantics_w :
    ((controlLogic 15000
        (onActuatorReceived RelayWaterPump (some true) 0 initState)).mode
      = MANUAL_MODE) ∧
    ((controlLogic 30001
        (onActuatorReceived RelayWaterPump (some true) 0 initState)).mode
      = AUTO_MODE) :=
  ⟨((manual_timeout_semantics
      (onActuatorReceived RelayWaterPump (some true) 0 initState) 0 15000
      (by decide) (by decide)).1.1 (by decide)).1,
   ((manual_timeout_semantics
      (onActuatorReceived RelayWaterPump (some true) 0 initState) 0 30001
      (by decide) (by decide)).1.2 (by decide)).1⟩

/-- C5: the pulse scheduler contract in AUTO. At a cycle boundary it reads
the fuzzy intensity: 1 opens a window of FUZZY1_PULSE, 2 a window of
FUZZY2_PULSE (longer), anything else leaves the pump off with no window.
Within a cycle the pump is commanded on exactly while the single window is
running and `now` is before its end, and is off (window closed) once `now`
reaches the end; in every case the pump is on only with a live window. -/
theorem pulse_scheduler_contract :
    ∀ (s : DeviceState) (now : Nat),
      s.mode = AUTO_MODE → s.manualLock = false →
      FUZZY1_PULSE < FUZZY2_PULSE ∧
      (now - s.cycleStart ≥ TELEMETRY_CYCLE →
         (controlLogic now s).cycleStart = now ∧
         (s.fuzzyState = 1 →
            (controlLogic now s).pulseRunning = true ∧
            (controlLogic now s).pulseEndTime = now + FUZZY1_PULSE ∧
            (controlLogic now s).pumpState = true) ∧
         (s.fuzzyState = 2 →
            (controlLogic now s).pulseRunning = true ∧
            (controlLogic now s).pulseEndTime = now + FUZZY2_PULSE ∧
            (controlLogic now s).pumpState = true) ∧
         (s.fuzzyState ≠ 1 → s.fuzzyState ≠ 2 →
            (controlLogic now s).pulseRunning = false ∧
            (controlLogic now s).pumpState = false)) ∧
      (now - s.cycleStart < TELEMETRY_CYCLE →
         ((controlLogic now s).pumpState = true ↔
            (s.pulseRunning = true ∧ now < s.pulseEndTime)) ∧
         (now ≥ s.pulseEndTime →
            (controlLogic now s).pulseRunning = false ∧
            (controlLogic now s).pumpState = false)) ∧
      ((controlLogic now s).pumpState = true →
         (controlLogic now s).pulseRunning = true ∧
         now < (controlLogic now s).pulseEndTime) := by
  intro s now h1 h2
  rw [controlLogic_auto s now h1 h2]
  refine ⟨by decide, ?_, ?_, (pulseScheduler_pump s now).mp⟩
  · intro hb
    unfold pulseScheduler
    dsimp only
    rw [if_pos hb]
    split_ifs with f1 f2 <;> simp_all [FUZZY1_PULSE, FUZZY2_PULSE]
  · intro hc
    unfold pulseScheduler
    dsimp only
    have hnb : ¬ (now - s.cycleStart ≥ TELEMETRY_CYCLE) := by omega
    rw [if_neg hnb]
    split_ifs <;> simp_all

/-- C5 witness: fuzzy intensity 1 received on serial; the boundary pass at
now = 60000 opens a 20-second window with the pump on. -/
theorem pulse_scheduler_contract_w :
    (controlLogic 60000 (serialFuzzy msgOne initState)).pulseRunning = true ∧
    (controlLogic 60000 (serialFuzzy msgOne initState)).pulseEndTime
      = 60000 + FUZZY1_PULSE ∧
    (controlLogic 60000 (serialFuzzy msgOne initState)).pumpState = true :=
  ((pulse_scheduler_contract (serialFuzzy msgOne initState) 60000
      (by decide) (by decide)).2.1 (by decide)).2.1 (by decide)

/-- C2 counterexample trace, step 1: fuzzy intensity 2 arrives on serial. -/
def c2trace1 : DeviceState := serialFuzzy msgTwo initState

/-- C2 counterexample trace, step 2: boundary pass at now = 60000 opens a
long window ending at 100000. -/
def c2trace2 : DeviceState := tickLoop 60000 c2trace1

/-- C2 counterexample trace, step 3: manual-ON received at now = 61000
while the window is active. -/
def c2trace3 : DeviceState :=
  onActuatorReceived RelayWaterPump (some true) 61000 c2trace2

/-- C2 counterexample trace, step 4: pass at now = 91001, past the manual
deadline 91000, so the arbiter returns to AUTO. -/
def c2trace4 : DeviceState := tickLoop 91001 c2trace3

/-- C2 counterexample trace, step 5: next AUTO pass at now = 91002. -/
def c2trace5 : DeviceState := tickLoop 91002 c2trace4

/-- C2 counterexample: manual-ON received at 61000 during the active window
[60000, 100000) does NOT cancel it (`pulseRunning` stays true), and after
the manual timeout the AUTO pass at 91002 is still driving the pump from
the pre-manual window (same end time 100000, same cycle start 60000) —
the discarded-window/fresh-cycle behaviour the claim states does not hold. -/
theorem manual_on_cancels_window_cex :
    c2trace2.pulseRunning = true ∧ c2trace2.pulseEndTime = 100000 ∧
    c2trace3.pulseRunning = true ∧
    c2trace5.mode = AUTO_MODE ∧ c2trace5.pumpState = true ∧
    c2trace5.pulseRunning = true ∧ c2trace5.pulseEndTime = 100000 ∧
    c2trace5.cycleStart = 60000 := by
  decide

/-- C2 amended: a manual-ON command does not touch the pulse window: it
enters MANUAL with the pump forced on while leaving `pulseRunning`,
`pulseEndTime` and `cycleStart` unchanged; every MANUAL pass keeps the pump
on; and on return to AUTO, a pass before the next cycle boundary with the
old window still unexpired resumes that window (pump on, same end time)
instead of starting a fresh cycle. -/
theorem manual_on_preserves_window :
    ∀ (s : DeviceState) (now : Nat),
      ((onActuatorReceived RelayWaterPump (some true) now s).pulseRunning
          = s.pulseRunning ∧
       (onActuatorReceived RelayWaterPump (some true) now s).pulseEndTime
          = s.pulseEndTime ∧
       (onActuatorReceived RelayWaterPump (some true) now s).cycleStart
          = s.cycleStart ∧
       (onActuatorReceived RelayWaterPump (some true) now s).mode
          = MANUAL_MODE ∧
       (onActuatorReceived RelayWaterPump (some true) now s).pumpState
          = true) ∧
      (s.mode = MANUAL_MODE → (controlLogic now s).pumpState = true) ∧
      (s.mode = AUTO_MODE → s.manualLock = false → s.pulseRunning = true →
        now - s.cycleStart < TELEMETRY_CYCLE → now < s.pulseEndTime →
        (controlLogic now s).pumpState = true ∧
        (controlLogic now s).pulseEndTime = s.pulseEndTime ∧
        (controlLogic now s).cycleStart = s.cycleStart) := by
  intro s now
  refine ⟨?_, ?_, ?_⟩
  · unfold onActuatorReceived
    rw [if_neg (by simp)]
    exact ⟨rfl, rfl, rfl, rfl, rfl⟩
  · intro hm
    rw [controlLogic_manual s now hm]
    split <;> rfl
  · intro h1 h2 hr hc he
    rw [controlLogic_auto s now h1 h2]
    unfold pulseScheduler
    dsimp only
    have hnb : ¬ (now - s.cycleStart ≥ TELEMETRY_CYCLE) := by omega
    rw [if_neg hnb, if_pos hr, if_pos he]
    exact ⟨rfl, rfl, rfl⟩

/-- C2 witness: at the concrete trace state after the manual timeout, the
AUTO pass at now = 91002 resumes the old window. -/
theorem manual_on_preserves_window_w :
    (controlLogic 91002 c2trace4).pumpState = true ∧
    (controlLogic 91002 c2trace4).pulseEndTime = c2trace4.pulseEndTime ∧
    (controlLogic 91002 c2trace4).cycleStart = c2trace4.cycleStart :=
  (manual_on_preserves_window c2trace4 91002).2.2
    (by decide) (by decide) (by decide) (by decide) (by decide)

/-- C7 counterexample: a malformed (non-numeric) command string on the Edge
firmware's MQTT command channel is not discarded — it parses to 0 via
`toInt` and is applied as pump-OFF, changing the control state. -/
theorem malformed_cmd_cex :
    Edge.callback Edge.topic_command msgAbc ⟨true⟩ ≠ (⟨true⟩ : Edge.EdgeState) := by
  decide

/-- C7 amended: on the arbiter firmware an unparsable payload or a
non-matching device id leaves the whole control state unchanged; on the
Edge firmware, however, a malformed command is not discarded: any MQTT
command string whose `toInt` is not 1, and any non-empty serial line whose
`toInt` is neither 1 nor 2, is applied as a pump-OFF command.  Messages on
other topics are ignored. -/
theorem malformed_cmd_handling :
    ∀ (s : DeviceState) (d : String) (p : Option Bool) (now : Nat)
      (es : Edge.EdgeState) (topic msg line : String),
      (onActuatorReceived d none now s = s) ∧
      (d ≠ RelayWaterPump → onActuatorReceived d p now s = s) ∧
      (topic ≠ Edge.topic_command → Edge.callback topic msg es = es) ∧
      (arduinoToInt msg ≠ 1 →
         (Edge.callback Edge.topic_command msg es).pumpState = false) ∧
      ((arduinoTrim line).length > 0 → arduinoToInt (arduinoTrim line) ≠ 1 →
         arduinoToInt (arduinoTrim line) ≠ 2 →
         (Edge.serialCommand line es).pumpState = false) := by
  intro s d p now es topic msg line
  refine ⟨?_, ?_, ?_, ?_, ?_⟩
  · unfold onActuatorReceived
    split <;> rfl
  · intro hd
    unfold onActuatorReceived
    rw [if_pos hd]
  · intro ht
    unfold Edge.callback
    rw [if_neg ht]
  · intro hm
    unfold Edge.callback
    rw [if_pos rfl]
    simp [hm]
  · intro hl h1 h2
    unfold Edge.serialCommand
    rw [if_pos hl]
    simp [h1, h2]

/-- C7 witness: on the arbiter, a command for a different device id is
ignored; on the Edge, the malformed string parses to 0 and forces the
pump off on both channels. -/
theorem malformed_cmd_handling_w :
    onActuatorReceived msgAbc (some true) 0 initState = initState ∧
    (Edge.callback Edge.topic_command msgAbc ⟨true⟩).pumpState = false ∧
    (Edge.serialCommand msgAbc ⟨true⟩).pumpState = false :=
  ⟨(malformed_cmd_handling initState msgAbc (some true) 0 ⟨true⟩
      msgOne msgAbc msgAbc).2.1 (by decide),
   (malformed_cmd_handling initState msgAbc (some true) 0 ⟨true⟩
      msgOne msgAbc msgAbc).2.2.2.1 (by decide),
   (malformed_cmd_handling initState msgAbc (some true) 0 ⟨true⟩
      msgOne msgAbc msgAbc).2.2.2.2 (by decide) (by decide) (by decide)⟩

/-- C8 counterexample: in the arbiter firmware's telemetry a failed
temperature read (NaN, modelled as `none`) is published as-is, not as the
sentinel 0. -/
theorem nan_substitution_cex :
    (telemetryTH none (some 5)).1 = none ∧
    (telemetryTH none (some 5)).1 ≠ some 0 := by
  decide

/-- C8 amended: in the Edge firmware a NaN temperature or humidity reading
does not fail the telemetry cycle — the sentinel 0.0 is substituted (for
both fields whenever either read fails), so the Edge payload never carries
NaN; the arbiter firmware's telemetry performs no such substitution and
publishes the raw readings unchanged. -/
theorem nan_substitution :
    ∀ (t h : Option ℚ),
      (t = none ∨ h = none → Edge.sendTelemetryTH t h = (some 0, some 0)) ∧
      ((Edge.sendTelemetryTH t h).1 ≠ none ∧
       (Edge.sendTelemetryTH t h).2 ≠ none) ∧
      telemetryTH t h = (t, h) := by
  intro t h
  refine ⟨?_, ?_, rfl⟩
  · intro hn
    unfold Edge.sendTelemetryTH
    rw [if_pos hn]
  · unfold Edge.sendTelemetryTH
    split
    · simp
    · rename_i hn
      simp only [not_or] at hn
      exact ⟨hn.1, hn.2⟩

/-- C8 witness: a failed temperature read on the Edge firmware yields the
sentinel pair (0, 0). -/
theorem nan_substitution_w :
    Edge.sendTelemetryTH none (some 5) = (some 0, some 0) :=
  (nan_substitution none (some 5)).1 (Or.inl rfl)

/-- Helper: no event other than an accepted manual-ON command can leave
EMERGENCY_STOP. -/
theorem emergency_mode_step (s : DeviceState) (e : Event)
    (hm : s.mode = EMERGENCY_STOP) (hn : isManualOn e = false) :
    (stepEvent e s).mode = EMERGENCY_STOP := by
  cases e with
  | actCmd d p now =>
      show (onActuatorReceived d p now s).mode = EMERGENCY_STOP
      unfold onActuatorReceived
      split
      · exact hm
      · rename_i hd
        have hdr : d = RelayWaterPump := not_not.mp hd
        match p with
        | none => exact hm
        | some false => rfl
        | some true =>
            exfalso
            unfold isManualOn at hn
            simp [hdr] at hn
  | serialLine l =>
      show (serialFuzzy l s).mode = EMERGENCY_STOP
      unfold serialFuzzy
      split <;> exact hm
  | tick now =>
      show (tickLoop now s).mode = EMERGENCY_STOP
      unfold tickLoop
      rw [(applyPump_frame (controlLogic now s)).1.1,
          controlLogic_emergency s now hm]
      exact hm

/-- C1 counterexample: after EMERGENCY_STOP is entered, a subsequently
received manual-ON command does re-override it — the arbiter moves to
MANUAL with the pump forced on, and the next control cycle drives the
pump, contrary to the claim that EMERGENCY_STOP persists until an
explicit re-arm. -/
theorem emergency_reoverride_cex :
    (onActuatorReceived RelayWaterPump (some false) 0 initState).mode
      = EMERGENCY_STOP ∧
    (onActuatorReceived RelayWaterPump (some true) 5
        (onActuatorReceived RelayWaterPump (some false) 0 initState)).mode
      = MANUAL_MODE ∧
    (tickLoop 6 (onActuatorReceived RelayWaterPump (some true) 5
        (onActuatorReceived RelayWaterPump (some false) 0 initState))).pumpState
      = true := by
  decide

/-- C1 amended: once the arbiter is in EMERGENCY_STOP, for as long as no
manual-ON command is received the mode stays EMERGENCY_STOP — it is never
left by any timeout — and PumpCommand is false on every subsequent control
cycle.  There is no separate re-arm command: the only way out is a
manual-ON command, which does re-override EMERGENCY_STOP. -/
theorem emergency_stop_semantics :
    ∀ (s : DeviceState) (evs : List Event),
      s.mode = EMERGENCY_STOP →
      (∀ e ∈ evs, isManualOn e = false) →
      (runEvents evs s).mode = EMERGENCY_STOP ∧
      ∀ now, (controlLogic now (runEvents evs s)).pumpState = false := by
  intro s evs
  induction evs generalizing s with
  | nil =>
      intro hm _
      refine ⟨hm, fun now => ?_⟩
      show (controlLogic now s).pumpState = false
      rw [controlLogic_emergency s now hm]
  | cons e es ih =>
      intro hm hall
      exact ih (stepEvent e s)
        (emergency_mode_step s e hm (hall e (by simp)))
        (fun x hx => hall x (by simp [hx]))

/-- C1/amended witness: concrete emergency state, then a tick, an
unparsable command, a serial line and a repeated stop command — the mode
stays EMERGENCY_STOP and a later control cycle keeps the pump off. -/
theorem emergency_stop_semantics_w :
    (runEvents
        [Event.tick 10, Event.actCmd RelayWaterPump none 20,
         Event.serialLine msgTwo, Event.actCmd RelayWaterPump (some false) 30,
         Event.tick 100000]
        (onActuatorReceived RelayWaterPump (some false) 3 initState)).mode
      = EMERGENCY_STOP ∧
    (controlLogic 200000 (runEvents
        [Event.tick 10, Event.actCmd RelayWaterPump none 20,
         Event.serialLine msgTwo, Event.actCmd RelayWaterPump (some false) 30,
         Event.tick 100000]
        (onActuatorReceived RelayWaterPump (some false) 3 initState))).pumpState
      = false :=
  ⟨(emergency_stop_semantics
      (onActuatorReceived RelayWaterPump (some false) 3 initState)
      [Event.tick 10, Event.actCmd RelayWaterPump none 20,
       Event.serialLine msgTwo, Event.actCmd RelayWaterPump (some false) 30,
       Event.tick 100000] (by decide) (by decide)).1,
   (emergency_stop_semantics
      (onActuatorReceived RelayWaterPump (some false) 3 initState)
      [Event.tick 10, Event.actCmd RelayWaterPump none 20,
       Event.serialLine msgTwo, Event.actCmd RelayWaterPump (some false) 30,
       Event.tick 100000] (by decide) (by decide)).2 200000⟩

/-- C10: in every reachable state, after a control-logic pass of the loop
the `manualLock` flag is set exactly when the mode is not AUTO — the lock
flag and the mode enum never disagree. -/
theorem manualLock_mode_coherent :
    ∀ (s : DeviceState) (now : Nat), Reachable s →
      ((tickLoop now s).manualLock = true ↔
        (tickLoop now s).mode ≠ AUTO_MODE) :=
  fun s now h => reachable_lockInv (tickLoop now s)
    (Reachable.step s (Event.tick now) h)

/-- C10 witness: the coherence holds after a pass at time 0 from the
initial state. -/
theorem manualLock_mode_coherent_w :
    (tickLoop 0 initState).manualLock = true ↔
      (tickLoop 0 initState).mode ≠ AUTO_MODE :=
  manualLock_mode_coherent initState 0 Reachable.init

/-- C4: in every reachable state in AUTO mode, a control pass commands the
pump on only when the pulse window is running and `now` is before its
end — AUTO never turns the pump on outside an active pulse window. -/
theorem auto_pump_needs_window :
    ∀ (s : DeviceState), Reachable s → s.mode = AUTO_MODE →
      ∀ (now : Nat), (controlLogic now s).pumpState = true →
        (controlLogic now s).pulseRunning = true ∧
        now < (controlLogic now s).pulseEndTime := by
  intro s hr hm now
  have hinv := reachable_lockInv s hr
  have hl : s.manualLock = false := by
    rcases Bool.eq_false_or_eq_true s.manualLock with hb | hb
    · exact absurd hm (hinv.mp hb)
    · exact hb
  rw [controlLogic_auto s now hm hl]
  exact (pulseScheduler_pump s now).mp

/-- C4 witness: the reachable state with fuzzy intensity 1; at the boundary
pass the pump is on and indeed inside the freshly opened window. -/
theorem auto_pump_needs_window_w :
    (controlLogic 60000 (stepEvent (Event.serialLine msgOne) initState)).pulseRunning
      = true ∧
    60000 < (controlLogic 60000
      (stepEvent (Event.serialLine msgOne) initState)).pulseEndTime :=
  auto_pump_needs_window (stepEvent (Event.serialLine msgOne) initState)
    (Reachable.step initState (Event.serialLine msgOne) Reachable.init)
    (by decide) 60000 (by decide)
